import Mathlib

/-!
Verification of the career-data API core: a shallow embedding of the
entity-store filter builders and per-kind sort orders, the CRUD resolvers
with identifier validation, the create-input validators, the error
taxonomy with message sanitization and provider/store error classification,
the prompt and revision-conversation builders, the provider-reply
normalization, and the career-data context renderer.

Sources embedded (TypeScript): the MongoDB service module (filter builders,
SORT_ORDERS, generic CRUD), the GraphQL resolver module (validation
functions, mutation resolvers, generation/revision message construction),
src/utils/errors.ts (error codes, sanitization, Anthropic/MongoDB error
classification), src/services/anthropic.ts (reply extraction and token
usage), and the prompt-builder module (career-data context rendering).
-/

namespace CareerData

-- ===========================================================================
-- String helpers modelling JavaScript and MongoDB primitives
-- ===========================================================================

/-- Contiguous-sublist test on character lists; the computational core of
substring containment. -/
def subListB : List Char → List Char → Bool
  | p, [] => p.isPrefixOf []
  | p, s@(_ :: t) => p.isPrefixOf s || subListB p t

/-- JavaScript `message.includes(pattern)`: case-sensitive substring test. -/
def strIncludes (s pattern : String) : Bool :=
  subListB pattern.data s.data

/-- ASCII lower-casing of a string (executable model of toLowerCase as the
regex engine applies case folding to the data at hand). -/
def jsToLower (s : String) : String :=
  ⟨s.data.map Char.toLower⟩

/-- Characters with special meaning in the regular-expression dialect the
store applies to `$regex` conditions.  A pattern containing none of them
matches exactly its literal occurrences, so for such patterns a
case-insensitive regex search coincides with case-insensitive substring
containment. -/
def regexMetaChars : List Char :=
  ['\\', '^', '$', '.', '|', '?', '*', '+', '(', ')', '[', ']', '\x7b', '\x7d']

/-- Whether a caller-supplied filter value is a literal regex pattern,
free of metacharacters. -/
def isLiteralPattern (s : String) : Bool :=
  s.data.all (fun c => !(regexMetaChars.contains c))

/-- MongoDB `{ $regex: pattern, $options: "i" }` applied to a string
field, modelled as case-insensitive substring containment.  The filter
builders pass the raw caller value as the pattern, so this model is exact
only for patterns satisfying isLiteralPattern; every theorem that relies
on it restricts to such patterns by explicit hypothesis, and every
concrete pattern evaluated below is metacharacter-free. -/
def ciContains (field pattern : String) : Bool :=
  subListB (jsToLower pattern).data (jsToLower field).data

/-- JavaScript `s.trim()`: strip leading and trailing whitespace
(executable model; JavaScript also strips some rarer Unicode space
characters, which none of the claims involve). -/
def jsTrim (s : String) : String :=
  ⟨((s.data.dropWhile Char.isWhitespace).reverse.dropWhile Char.isWhitespace).reverse⟩

/-- Lexicographic comparison of character lists by code point.  UTF-8 byte
order (MongoDB simple binary collation) coincides with code-point order. -/
def charListLe : List Char → List Char → Bool
  | [], _ => true
  | _ :: _, [] => false
  | a :: as, b :: bs => if a < b then true else if b < a then false else charListLe as bs

/-- MongoDB ascending string comparison under the default (simple, binary)
collation: no collation document is supplied anywhere in the source. -/
def mongoStrLe (a b : String) : Bool :=
  charListLe a.data b.data

/-- Modelled from the spec: the case-insensitive ascending name comparison
the specification claims for the Skill sort order. -/
def ciStrLe (a b : String) : Bool :=
  mongoStrLe (jsToLower a) (jsToLower b)

-- ===========================================================================
-- Error taxonomy (src/utils/errors.ts)
-- ===========================================================================

/-- The closed set of error codes of the ErrorCodes constant. -/
inductive ErrorCode where
  | UNAUTHENTICATED
  | BAD_USER_INPUT
  | NOT_FOUND
  | INTERNAL_SERVER_ERROR
  | AI_SERVICE_ERROR
  | DATABASE_ERROR
deriving DecidableEq, BEq, Repr

/-- APIError: the carrier of a classified failure (message and code); the
details and wrapped original error are irrelevant to the claims and omitted. -/
structure APIError where
  message : String
  code : ErrorCode
deriving DecidableEq, Repr

/-- The SAFE_ERROR_MESSAGES table: the fixed generic per-kind message. -/
def SAFE_ERROR_MESSAGES : ErrorCode → String
  | .UNAUTHENTICATED => "Authentication required"
  | .BAD_USER_INPUT => "Invalid input provided"
  | .NOT_FOUND => "Resource not found"
  | .INTERNAL_SERVER_ERROR => "An internal error occurred"
  | .AI_SERVICE_ERROR => "AI service is temporarily unavailable"
  | .DATABASE_ERROR => "Database service is temporarily unavailable"

/-- isMessageSafe: validation and not-found errors carry user-safe text. -/
def isMessageSafe (e : APIError) : Bool :=
  e.code == ErrorCode.BAD_USER_INPUT || e.code == ErrorCode.NOT_FOUND

/-- sanitizeErrorMessage: pass safe messages through, else the generic one.
The source falls back on the INTERNAL_SERVER_ERROR message only when the
table misses the code, which cannot happen over the closed code type. -/
def sanitizeErrorMessage (e : APIError) : String :=
  if isMessageSafe e then e.message else SAFE_ERROR_MESSAGES e.code

/-- Constructor of the AIServiceError class (code AI_SERVICE_ERROR). -/
def AIServiceError (message : String) : APIError :=
  ⟨message, ErrorCode.AI_SERVICE_ERROR⟩

/-- Constructor of the DatabaseError class (code DATABASE_ERROR). -/
def DatabaseError (message : String) : APIError :=
  ⟨message, ErrorCode.DATABASE_ERROR⟩

/-- Constructor of the ValidationError class (code BAD_USER_INPUT). -/
def ValidationError (message : String) : APIError :=
  ⟨message, ErrorCode.BAD_USER_INPUT⟩

/-- handleAnthropicError: the error the function throws for a provider
failure whose description is `message` (the function body rethrows, so we
model its result value). -/
def handleAnthropicError (message : String) : APIError :=
  if strIncludes message "API key" then
    AIServiceError "AI service configuration error"
  else if strIncludes message "rate limit" then
    AIServiceError "AI service rate limit exceeded. Please try again later."
  else if strIncludes message "timeout" then
    AIServiceError "AI service request timed out. Please try again."
  else
    AIServiceError "Failed to generate content. Please try again later."

/-- handleDatabaseError: the error the function throws for a store failure
whose description is `message`. -/
def handleDatabaseError (message : String) : APIError :=
  if strIncludes message "connection" then
    DatabaseError "Database connection error. Please try again later."
  else if strIncludes message "duplicate key" then
    ValidationError "A record with this identifier already exists"
  else
    DatabaseError "Database operation failed. Please try again later."

-- ===========================================================================
-- Data model (mongodb service module)
-- ===========================================================================

/-- Dates are modelled by their epoch-millisecond time value, which is what
MongoDB compares when sorting Date fields. -/
abbrev Date := Int

structure Achievement where
  description : String
  metrics : Option String
deriving DecidableEq, Repr

structure Experience where
  company : String
  location : String
  title : String
  industry : Option String
  startDate : Date
  endDate : Option Date
  roleTypes : List String
  responsibilities : List String
  achievements : List Achievement
  technologies : List String
  featured : Bool
  createdAt : Date
  updatedAt : Date
deriving DecidableEq, Repr

/-- Skill: rating and yearsOfExperience are JS numbers; the stored values
are integral, so they are modelled as naturals. -/
structure Skill where
  name : String
  roleRelevance : String
  level : String
  rating : Nat
  yearsOfExperience : Nat
  tags : List String
  keywords : List String
  createdAt : Date
  updatedAt : Date
deriving DecidableEq, Repr

structure Project where
  name : String
  type : String
  date : Option Date
  featured : Bool
  overview : String
  challenge : Option String
  approach : Option String
  outcome : Option String
  impact : Option String
  technologies : List String
  keywords : List String
  roleTypes : List String
  createdAt : Date
  updatedAt : Date
deriving DecidableEq, Repr

structure Education where
  institution : String
  degree : String
  field : String
  graduationYear : Int
  relevantCoursework : List String
  createdAt : Date
  updatedAt : Date
deriving DecidableEq, Repr

structure PersonalInfo where
  name : String
  email : String
  phone : Option String
  location : Option String
  linkedin : Option String
  github : Option String
  website : Option String
deriving DecidableEq, Repr

structure Positioning where
  headline : String
  summary : String
deriving DecidableEq, Repr

structure Profile where
  personalInfo : PersonalInfo
  positioning : Positioning
  valuePropositions : List String
  professionalMission : String
  uniqueSellingPoints : List String
  updatedAt : Date
deriving DecidableEq, Repr

-- ===========================================================================
-- Filter types and filter query builders
-- ===========================================================================

structure ExperienceFilter where
  company : Option String := none
  title : Option String := none
  industry : Option String := none
  roleType : Option String := none
  technology : Option String := none
  featured : Option Bool := none
deriving DecidableEq, Repr

/-- SkillFilter as the GraphQL schema accepts it: the schema also admits
a keyword field, which buildSkillFilter never reads. -/
structure SkillFilter where
  name : Option String := none
  roleRelevance : Option String := none
  level : Option String := none
  tag : Option String := none
  keyword : Option String := none
deriving DecidableEq, Repr

/-- ProjectFilter as the GraphQL schema accepts it: the schema also
admits a keyword field, which buildProjectFilter never reads. -/
structure ProjectFilter where
  name : Option String := none
  type : Option String := none
  technology : Option String := none
  keyword : Option String := none
  roleType : Option String := none
  featured : Option Bool := none
deriving DecidableEq, Repr

/-- A condition a built query places on a string-valued document field:
either a case-insensitive regex (the `$regex`/`$options: "i"` object) or
plain equality. -/
inductive StrCond where
  | regexCI (pattern : String)
  | eqStr (value : String)
deriving DecidableEq, Repr

/-- JavaScript truthiness of an optional string filter field: the builders
guard each clause with `if (filter.field)`, so an absent or empty string
imposes no constraint. -/
def strField : Option String → Option String
  | none => none
  | some s => if s = "" then none else some s

/-- The query document buildExperienceFilter constructs. -/
structure ExperienceQuery where
  company : Option StrCond := none
  title : Option StrCond := none
  industry : Option StrCond := none
  roleTypes : Option String := none
  technologies : Option String := none
  featured : Option Bool := none
deriving DecidableEq, Repr

/-- The query document buildSkillFilter constructs. -/
structure SkillQuery where
  name : Option StrCond := none
  roleRelevance : Option StrCond := none
  level : Option StrCond := none
  tags : Option String := none
deriving DecidableEq, Repr

/-- The query document buildProjectFilter constructs. -/
structure ProjectQuery where
  name : Option StrCond := none
  type : Option StrCond := none
  technologies : Option String := none
  roleTypes : Option String := none
  featured : Option Bool := none
deriving DecidableEq, Repr

/-- buildExperienceFilter: company, title and industry become
case-insensitive regexes; roleType and technology become equality
conditions against the tag arrays; featured is copied when defined. -/
def buildExperienceFilter : Option ExperienceFilter → ExperienceQuery
  | none => {}
  | some f =>
    { company := (strField f.company).map StrCond.regexCI
      title := (strField f.title).map StrCond.regexCI
      industry := (strField f.industry).map StrCond.regexCI
      roleTypes := strField f.roleType
      technologies := strField f.technology
      featured := f.featured }

/-- buildSkillFilter: name becomes a case-insensitive regex; roleRelevance
and level become plain equality conditions; tag becomes an equality
condition against the tags array. -/
def buildSkillFilter : Option SkillFilter → SkillQuery
  | none => {}
  | some f =>
    { name := (strField f.name).map StrCond.regexCI
      roleRelevance := (strField f.roleRelevance).map StrCond.eqStr
      level := (strField f.level).map StrCond.eqStr
      tags := strField f.tag }

/-- buildProjectFilter: name becomes a case-insensitive regex; type becomes
a plain equality condition; technology and roleType become equality
conditions against the tag arrays; featured is copied when defined. -/
def buildProjectFilter : Option ProjectFilter → ProjectQuery
  | none => {}
  | some f =>
    { name := (strField f.name).map StrCond.regexCI
      type := (strField f.type).map StrCond.eqStr
      technologies := strField f.technology
      roleTypes := strField f.roleType
      featured := f.featured }

/-- MongoDB evaluation of a string condition on a present string value. -/
def evalStrCond (c : StrCond) (v : String) : Bool :=
  match c with
  | .regexCI p => ciContains v p
  | .eqStr x => v == x

/-- MongoDB evaluation of an optional condition on a required field. -/
def optCond (oc : Option StrCond) (v : String) : Bool :=
  match oc with
  | none => true
  | some c => evalStrCond c v

/-- MongoDB evaluation of an optional condition on an optional field: a
condition on a missing (absent) field does not match. -/
def optCondOpt (oc : Option StrCond) (v : Option String) : Bool :=
  match oc with
  | none => true
  | some c => match v with
    | none => false
    | some s => evalStrCond c s

/-- MongoDB equality of a scalar against an array field: matches when the
array contains the value. -/
def arrayCond (oc : Option String) (arr : List String) : Bool :=
  match oc with
  | none => true
  | some s => arr.contains s

/-- MongoDB evaluation of an optional boolean equality condition. -/
def boolCond (oc : Option Bool) (v : Bool) : Bool :=
  match oc with
  | none => true
  | some b => v == b

/-- MongoDB evaluation of an experience query document against a document. -/
def experienceQueryMatches (q : ExperienceQuery) (e : Experience) : Bool :=
  optCond q.company e.company &&
  optCond q.title e.title &&
  optCondOpt q.industry e.industry &&
  arrayCond q.roleTypes e.roleTypes &&
  arrayCond q.technologies e.technologies &&
  boolCond q.featured e.featured

/-- MongoDB evaluation of a skill query document against a document. -/
def skillQueryMatches (q : SkillQuery) (s : Skill) : Bool :=
  optCond q.name s.name &&
  optCond q.roleRelevance s.roleRelevance &&
  optCond q.level s.level &&
  arrayCond q.tags s.tags

/-- MongoDB evaluation of a project query document against a document. -/
def projectQueryMatches (q : ProjectQuery) (p : Project) : Bool :=
  optCond q.name p.name &&
  optCond q.type p.type &&
  arrayCond q.technologies p.technologies &&
  arrayCond q.roleTypes p.roleTypes &&
  boolCond q.featured p.featured

/-- Modelled from the spec as amended: the direct conjunctive reading of an
experience filter — supplied company/title/industry match
case-insensitively as substrings, roleType and technology by membership,
featured by equality; unsupplied (or empty-string) fields impose no
constraint. -/
def experienceMatchesSpec (f : Option ExperienceFilter) (e : Experience) : Bool :=
  match f with
  | none => true
  | some f =>
    (match strField f.company with | none => true | some p => ciContains e.company p) &&
    (match strField f.title with | none => true | some p => ciContains e.title p) &&
    (match strField f.industry with
      | none => true
      | some p => match e.industry with | none => false | some v => ciContains v p) &&
    (match strField f.roleType with | none => true | some t => e.roleTypes.contains t) &&
    (match strField f.technology with | none => true | some t => e.technologies.contains t) &&
    (match f.featured with | none => true | some b => e.featured == b)

/-- Modelled from the spec as amended: the direct conjunctive reading of a
skill filter — name matches case-insensitively as a substring,
roleRelevance and level by exact equality, tag by membership, and the
keyword field the schema accepts imposes no constraint (the builder
ignores it). -/
def skillMatchesSpec (f : Option SkillFilter) (s : Skill) : Bool :=
  match f with
  | none => true
  | some f =>
    (match strField f.name with | none => true | some p => ciContains s.name p) &&
    (match strField f.roleRelevance with | none => true | some v => s.roleRelevance == v) &&
    (match strField f.level with | none => true | some v => s.level == v) &&
    (match strField f.tag with | none => true | some t => s.tags.contains t)

/-- Modelled from the spec as amended: the direct conjunctive reading of a
project filter — name matches case-insensitively as a substring, type by
exact equality, technology and roleType by membership, featured by
equality, and the keyword field the schema accepts imposes no constraint
(the builder ignores it). -/
def projectMatchesSpec (f : Option ProjectFilter) (p : Project) : Bool :=
  match f with
  | none => true
  | some f =>
    (match strField f.name with | none => true | some x => ciContains p.name x) &&
    (match strField f.type with | none => true | some v => p.type == v) &&
    (match strField f.technology with | none => true | some t => p.technologies.contains t) &&
    (match strField f.roleType with | none => true | some t => p.roleTypes.contains t) &&
    (match f.featured with | none => true | some b => p.featured == b)

-- ===========================================================================
-- Per-kind sort orders (SORT_ORDERS) and findAll
-- ===========================================================================

/-- MongoDB comparison of optional date fields: BSON null (an absent date)
orders below every date. -/
def optDateLe : Option Date → Option Date → Bool
  | none, _ => true
  | some _, none => false
  | some x, some y => decide (x ≤ y)

/-- SORT_ORDERS for experiences: startDate descending. -/
def experienceSortRel (a b : Experience) : Prop :=
  b.startDate ≤ a.startDate

instance : DecidableRel experienceSortRel := fun a b =>
  inferInstanceAs (Decidable (b.startDate ≤ a.startDate))

/-- SORT_ORDERS for skills: name ascending under the default
binary store collation (the source supplies no collation document). -/
def skillSortRel (a b : Skill) : Prop :=
  mongoStrLe a.name b.name = true

instance : DecidableRel skillSortRel := fun a b =>
  inferInstanceAs (Decidable (mongoStrLe a.name b.name = true))

/-- SORT_ORDERS for projects: date descending, absent dates last. -/
def projectSortRel (a b : Project) : Prop :=
  optDateLe b.date a.date = true

instance : DecidableRel projectSortRel := fun a b =>
  inferInstanceAs (Decidable (optDateLe b.date a.date = true))

/-- SORT_ORDERS for educations: graduationYear descending. -/
def educationSortRel (a b : Education) : Prop :=
  b.graduationYear ≤ a.graduationYear

instance : DecidableRel educationSortRel := fun a b =>
  inferInstanceAs (Decidable (b.graduationYear ≤ a.graduationYear))

/-- findAll for the experiences collection: filter by the query, then apply
the server-side default sort.  Insertion sort stands in for the comparison
sort of the store; MongoDB fixes only the key order, which any comparison
sort realizes. -/
def findAllExperiences (docs : List Experience) (q : ExperienceQuery) : List Experience :=
  List.insertionSort experienceSortRel (docs.filter (experienceQueryMatches q))

/-- findAll for the skills collection. -/
def findAllSkills (docs : List Skill) (q : SkillQuery) : List Skill :=
  List.insertionSort skillSortRel (docs.filter (skillQueryMatches q))

/-- findAll for the projects collection. -/
def findAllProjects (docs : List Project) (q : ProjectQuery) : List Project :=
  List.insertionSort projectSortRel (docs.filter (projectQueryMatches q))

/-- findAll for the educations collection (education filter evaluation is
not needed by any claim; the query argument is the already-built match
predicate). -/
def findAllEducations (docs : List Education) (pred : Education → Bool) : List Education :=
  List.insertionSort educationSortRel (docs.filter pred)

-- ===========================================================================
-- Identifier validation, store CRUD and the experience mutation resolvers
-- ===========================================================================

/-- ObjectId.isValid on a string in its canonical form: 24 hexadecimal
characters.  (The driver also accepts any 12-character string as a legacy
byte representation; no claim depends on that case.) -/
def isValidObjectId (s : String) : Bool :=
  s.length == 24 && s.data.all (fun c =>
    c.isDigit || ("abcdefABCDEF".data.contains c))

/-- A stored collection: documents keyed by their identifier string. -/
abbrev Store (α : Type) := List (String × α)

/-- Key-match predicate used by the id-based operations. -/
def keyIs (id : String) : String × α → Bool :=
  fun p => p.1 == id

/-- collection.findOne on an identifier (findById). -/
def storeFindById (st : Store α) (id : String) : Option α :=
  (st.find? (keyIs id)).map Prod.snd

/-- deleteById: deleteOne by identifier; true exactly when a document was
deleted, paired with the collection afterwards. -/
def deleteById (st : Store α) (id : String) : Bool × Store α :=
  match st.find? (keyIs id) with
  | some _ => (true, st.eraseP (keyIs id))
  | none => (false, st)

/-- Replace the first document with the given identifier. -/
def updateFirst (st : Store α) (id : String) (patch : α → α) : Store α :=
  match st with
  | [] => []
  | p :: rest =>
    if p.1 == id then (p.1, patch p.2) :: rest
    else p :: updateFirst rest id patch

/-- update: findOneAndUpdate with returnDocument "after"; the updated
document or none, paired with the collection afterwards. -/
def updateById (st : Store α) (id : String) (patch : α → α) : Option α × Store α :=
  match st.find? (keyIs id) with
  | some p => (some (patch p.2), updateFirst st id patch)
  | none => (none, st)

/-- The GraphQLError surface of the resolvers: message plus extensions
(code, and missingFields for validation failures). -/
structure GqlError where
  message : String
  code : ErrorCode
  missingFields : List String := []
deriving DecidableEq, Repr

/-- throwNotFound in the resolver module. -/
def throwNotFound (entityName id : String) : GqlError :=
  ⟨entityName ++ " with ID " ++ id ++ " not found", ErrorCode.NOT_FOUND, []⟩

/-- validateObjectId failure in the resolver module. -/
def invalidIdError (entityName : String) : GqlError :=
  ⟨"Invalid " ++ entityName ++ " ID format", ErrorCode.BAD_USER_INPUT, []⟩

/-- DeleteResult: the shape delete mutations resolve to. -/
structure DeleteResult where
  success : Bool
  id : String
deriving DecidableEq, Repr

-- ===========================================================================
-- Create/update input validation (resolver module)
-- ===========================================================================

/-- ExperienceInput as the validator sees it at the JavaScript level: a
field is none when absent; string fields may also be present but empty.
(The GraphQL schema marks the required fields non-null, but the validator
is written defensively and checks every field itself.) -/
structure ExperienceInput where
  company : Option String := none
  location : Option String := none
  title : Option String := none
  industry : Option String := none
  startDate : Option Date := none
  endDate : Option Date := none
  roleTypes : Option (List String) := none
  responsibilities : Option (List String) := none
  achievements : Option (List Achievement) := none
  technologies : Option (List String) := none
  featured : Option Bool := none
deriving DecidableEq, Repr

/-- JavaScript falsiness of an optional string: absent or empty. -/
def strFalsy : Option String → Bool
  | none => true
  | some s => s == ""

/-- The missingFields list validateExperienceInput accumulates, in source
order.  String fields are missing when falsy; startDate when absent (a
Date object is always truthy); array fields when absent (an empty array is
truthy and passes Array.isArray); featured when undefined. -/
def experienceMissingFields (i : ExperienceInput) : List String :=
  (if strFalsy i.company then ["company"] else []) ++
  (if strFalsy i.location then ["location"] else []) ++
  (if strFalsy i.title then ["title"] else []) ++
  (if i.startDate.isNone then ["startDate"] else []) ++
  (if i.roleTypes.isNone then ["roleTypes"] else []) ++
  (if i.responsibilities.isNone then ["responsibilities"] else []) ++
  (if i.achievements.isNone then ["achievements"] else []) ++
  (if i.technologies.isNone then ["technologies"] else []) ++
  (if i.featured.isNone then ["featured"] else [])

/-- validateExperienceInput: throw BAD_USER_INPUT carrying every missing
field when any required field is missing. -/
def validateExperienceInput (i : ExperienceInput) : Except GqlError Unit :=
  let missingFields := experienceMissingFields i
  if missingFields.isEmpty then Except.ok ()
  else Except.error
    ⟨"Missing required fields: " ++ String.intercalate ", " missingFields,
      ErrorCode.BAD_USER_INPUT, missingFields⟩

/-- Modelled from the spec: the fields the Experience record kind declares
required, in the order the validator checks them. -/
def experienceRequiredFields : List String :=
  ["company", "location", "title", "startDate", "roleTypes",
   "responsibilities", "achievements", "technologies", "featured"]

/-- Modelled from the spec: whether a named required field is missing or
empty in the input. -/
def experienceFieldMissing (i : ExperienceInput) : String → Bool
  | "company" => strFalsy i.company
  | "location" => strFalsy i.location
  | "title" => strFalsy i.title
  | "startDate" => i.startDate.isNone
  | "roleTypes" => i.roleTypes.isNone
  | "responsibilities" => i.responsibilities.isNone
  | "achievements" => i.achievements.isNone
  | "technologies" => i.technologies.isNone
  | "featured" => i.featured.isNone
  | _ => false

/-- The $set document of the update mutation applied to a stored document:
replace the supplied fields, keep createdAt, refresh updatedAt. -/
def applyExperienceInput (i : ExperienceInput) (now : Date) (e : Experience) : Experience :=
  { company := i.company.getD e.company
    location := i.location.getD e.location
    title := i.title.getD e.title
    industry := i.industry
    startDate := i.startDate.getD e.startDate
    endDate := i.endDate
    roleTypes := i.roleTypes.getD e.roleTypes
    responsibilities := i.responsibilities.getD e.responsibilities
    achievements := i.achievements.getD e.achievements
    technologies := i.technologies.getD e.technologies
    featured := i.featured.getD e.featured
    createdAt := e.createdAt
    updatedAt := now }

/-- The deleteExperience mutation resolver: validate the identifier format,
delete, and convert a miss into a NOT_FOUND error. -/
def deleteExperience (st : Store Experience) (id : String) : Except GqlError DeleteResult :=
  if !(isValidObjectId id) then Except.error (invalidIdError "experience")
  else if (deleteById st id).1 then Except.ok ⟨true, id⟩
  else Except.error (throwNotFound "Experience" id)

/-- The updateExperience mutation resolver: validate the identifier format
and the input, update, and convert a miss into a NOT_FOUND error. -/
def updateExperience (st : Store Experience) (id : String) (input : ExperienceInput)
    (now : Date) : Except GqlError Experience :=
  if !(isValidObjectId id) then Except.error (invalidIdError "experience")
  else match validateExperienceInput input with
    | Except.error e => Except.error e
    | Except.ok _ =>
      match (updateById st id (applyExperienceInput input now)).1 with
      | some doc => Except.ok doc
      | none => Except.error (throwNotFound "Experience" id)

-- ===========================================================================
-- AI generation inputs and validation (resolver module)
-- ===========================================================================

structure JobInfoInput where
  description : String
  jobType : String
deriving DecidableEq, Repr

/-- validateJobInfoInput: description and jobType must be non-blank; the
failure carries every missing field name.  (For a string value, the
JavaScript guard collapses to a blank-trim check.) -/
def validateJobInfoInput (jobInfo : JobInfoInput) : Except GqlError Unit :=
  let missingFields :=
    (if (jsTrim jobInfo.description) == "" then ["description"] else []) ++
    (if (jsTrim jobInfo.jobType) == "" then ["jobType"] else [])
  if missingFields.isEmpty then Except.ok ()
  else Except.error
    ⟨"Missing required fields in jobInfo: " ++ String.intercalate ", " missingFields,
      ErrorCode.BAD_USER_INPUT, missingFields⟩

/-- validateQuestion: the question must be non-blank. -/
def validateQuestion (question : String) : Except GqlError Unit :=
  if (jsTrim question) == "" then
    Except.error ⟨"Missing required field: question", ErrorCode.BAD_USER_INPUT, ["question"]⟩
  else Except.ok ()

/-- validateFeedback: the feedback must be non-blank. -/
def validateFeedback (feedback : String) : Except GqlError Unit :=
  if (jsTrim feedback) == "" then
    Except.error ⟨"Missing required field: feedback", ErrorCode.BAD_USER_INPUT, ["feedback"]⟩
  else Except.ok ()

/-- The validation sequence of the reviseAnswer resolver: jobInfo, then
question, then feedback; currentAnswer is accepted without any check. -/
def reviseAnswerValidation (jobInfo : JobInfoInput) (question currentAnswer feedback : String) :
    Except GqlError Unit := do
  validateJobInfoInput jobInfo
  validateQuestion question
  let _ := currentAnswer
  validateFeedback feedback

-- ===========================================================================
-- Conversation construction (resolver module)
-- ===========================================================================

inductive Role where
  | user
  | assistant
deriving DecidableEq, Repr

structure MessageParam where
  role : Role
  content : String
deriving DecidableEq, Repr

/-- The user message generateResume composes; the additional-context
section is appended only when the argument is truthy. -/
def generateResumeUserMessage (jobInfo : JobInfoInput) (additionalContext : Option String) :
    String :=
  let base := "Please create a tailored resume for the following job opportunity:\n\n**Job Type:** "
    ++ jobInfo.jobType ++ "\n\n**Job Description:**\n" ++ jobInfo.description
  match additionalContext with
  | none => base
  | some ac =>
    if ac == "" then base
    else base ++ "\n\n**Additional Context:**\n" ++ ac

/-- The user message generateCoverLetter composes. -/
def generateCoverLetterUserMessage (jobInfo : JobInfoInput) (additionalContext : Option String) :
    String :=
  let base := "Please create a tailored cover letter for the following job opportunity:\n\n**Job Type:** "
    ++ jobInfo.jobType ++ "\n\n**Job Description:**\n" ++ jobInfo.description
  match additionalContext with
  | none => base
  | some ac =>
    if ac == "" then base
    else base ++ "\n\n**Additional Context:**\n" ++ ac

/-- The user message generateAnswer composes; the current-answer section is
appended only when the argument is truthy. -/
def generateAnswerUserMessage (jobInfo : JobInfoInput) (question : String)
    (currentAnswer : Option String) : String :=
  let base := "Please help me answer the following job application question:\n\n**Job Type:** "
    ++ jobInfo.jobType ++ "\n\n**Job Description:**\n" ++ jobInfo.description
    ++ "\n\n**Question:**\n" ++ question
  match currentAnswer with
  | none => base
  | some ca =>
    if ca == "" then base
    else base ++ "\n\n**Current Answer (to improve upon):**\n" ++ ca

/-- The three-turn conversation reviseResume builds. -/
def reviseResumeMessages (jobInfo : JobInfoInput) (feedback : String) : List MessageParam :=
  [⟨Role.user,
      "Please create a tailored resume for the following job opportunity:\n\n**Job Type:** "
        ++ jobInfo.jobType ++ "\n\n**Job Description:**\n" ++ jobInfo.description⟩,
   ⟨Role.assistant,
      "I\x27ve created a resume based on the job description. Please provide feedback for revisions."⟩,
   ⟨Role.user,
      "Please revise the resume based on the following feedback:\n\n" ++ feedback⟩]

/-- The three-turn conversation reviseCoverLetter builds. -/
def reviseCoverLetterMessages (jobInfo : JobInfoInput) (feedback : String) : List MessageParam :=
  [⟨Role.user,
      "Please create a tailored cover letter for the following job opportunity:\n\n**Job Type:** "
        ++ jobInfo.jobType ++ "\n\n**Job Description:**\n" ++ jobInfo.description⟩,
   ⟨Role.assistant,
      "I\x27ve created a cover letter based on the job description. Please provide feedback for revisions."⟩,
   ⟨Role.user,
      "Please revise the cover letter based on the following feedback:\n\n" ++ feedback⟩]

/-- The three-turn conversation reviseAnswer builds: the assistant turn
replays the caller-supplied current answer. -/
def reviseAnswerMessages (jobInfo : JobInfoInput) (question currentAnswer feedback : String) :
    List MessageParam :=
  [⟨Role.user,
      "Please help me answer the following job application question:\n\n**Job Type:** "
        ++ jobInfo.jobType ++ "\n\n**Job Description:**\n" ++ jobInfo.description
        ++ "\n\n**Question:**\n" ++ question⟩,
   ⟨Role.assistant, currentAnswer⟩,
   ⟨Role.user,
      "Please revise the answer based on the following feedback:\n\n" ++ feedback⟩]

-- ===========================================================================
-- Provider reply normalization (src/services/anthropic.ts)
-- ===========================================================================

/-- A content block of the provider reply: a text block or a block of any
other type (carrying its type tag). -/
inductive ContentBlock where
  | text (t : String)
  | other (ty : String)
deriving DecidableEq, Repr

/-- The `block.type === "text"` test. -/
def isTextBlock : ContentBlock → Bool
  | .text _ => true
  | .other _ => false

/-- The usage structure of the provider: input and output counts always
reported, cache counts only sometimes present. -/
structure ApiUsage where
  input_tokens : Nat
  output_tokens : Nat
  cache_read_input_tokens : Option Nat := none
  cache_creation_input_tokens : Option Nat := none
deriving DecidableEq, Repr

/-- The provider reply as generateContent consumes it. -/
structure AnthropicResponse where
  content : List ContentBlock
  usage : ApiUsage
deriving DecidableEq, Repr

/-- TokenUsage as exposed upward. -/
structure TokenUsage where
  inputTokens : Nat
  outputTokens : Nat
  cacheReadInputTokens : Option Nat := none
  cacheCreationInputTokens : Option Nat := none
deriving DecidableEq, Repr

/-- GenerationResult as exposed upward. -/
structure GenerationResult where
  content : String
  usage : TokenUsage
deriving DecidableEq, Repr

/-- The normalization generateContent and generateContentWithHistory share:
take the text of the first text block (empty string when none), and copy the
token counts; the cache counts are undefined in the result exactly when the
provider does not report them. -/
def extractGenerationResult (response : AnthropicResponse) : GenerationResult :=
  let textContent := response.content.find? isTextBlock
  { content :=
      match textContent with
      | some (.text t) => t
      | _ => ""
    usage :=
      { inputTokens := response.usage.input_tokens
        outputTokens := response.usage.output_tokens
        cacheReadInputTokens := response.usage.cache_read_input_tokens
        cacheCreationInputTokens := response.usage.cache_creation_input_tokens } }

-- ===========================================================================
-- Career-data composite and context rendering (prompts module)
-- ===========================================================================

/-- CareerData: the composite fetchCareerData assembles. -/
structure CareerDataT where
  profile : Option Profile
  experiences : List Experience
  skills : List Skill
  projects : List Project
  educations : List Education
deriving Repr

/-- Short month names used by toLocaleDateString with month "short". -/
def monthName : Int → String
  | 1 => "Jan"
  | 2 => "Feb"
  | 3 => "Mar"
  | 4 => "Apr"
  | 5 => "May"
  | 6 => "Jun"
  | 7 => "Jul"
  | 8 => "Aug"
  | 9 => "Sep"
  | 10 => "Oct"
  | 11 => "Nov"
  | 12 => "Dec"
  | _ => ""

/-- Proleptic-Gregorian civil date (year, month) of a day count since the
Unix epoch. -/
def civilFromDays (z0 : Int) : Int × Int :=
  let z := z0 + 719468
  let era := Int.fdiv z 146097
  let doe := z - era * 146097
  let yoe := Int.fdiv (doe - Int.fdiv doe 1460 + Int.fdiv doe 36524 - Int.fdiv doe 146096) 365
  let y := yoe + era * 400
  let doy := doe - (365 * yoe + Int.fdiv yoe 4 - Int.fdiv yoe 100)
  let mp := Int.fdiv (5 * doy + 2) 153
  let m := if mp < 10 then mp + 3 else mp - 9
  (if m ≤ 2 then y + 1 else y, m)

/-- formatDate: "Present" for an absent date, otherwise short month plus
year (rendered at UTC; toLocaleDateString uses the process timezone). -/
def formatDate : Option Date → String
  | none => "Present"
  | some ms =>
    let c := civilFromDays (Int.fdiv ms 86400000)
    monthName c.2 ++ " " ++ toString c.1

/-- Truthy-guarded optional text: JavaScript renders nothing for an absent
or empty value. -/
def optStr (v : Option String) (f : String → String) : String :=
  match v with
  | none => ""
  | some s => if s == "" then "" else f s

/-- One experience block of formatExperiences. -/
def formatExperience (exp : Experience) : String :=
  let dateRange := formatDate (some exp.startDate) ++ " - " ++ formatDate exp.endDate
  let achievements := String.intercalate "\n" (exp.achievements.map (fun a =>
    "  - " ++ a.description ++ optStr a.metrics (fun m => " (" ++ m ++ ")")))
  let responsibilities := String.intercalate "\n" (exp.responsibilities.map (fun r => "  - " ++ r))
  "### " ++ exp.title ++ " at " ++ exp.company
    ++ "\n**Location:** " ++ exp.location
    ++ "\n**Duration:** " ++ dateRange
    ++ "\n" ++ optStr exp.industry (fun i => "**Industry:** " ++ i)
    ++ "\n**Role Types:** " ++ String.intercalate ", " exp.roleTypes
    ++ "\n**Technologies:** " ++ String.intercalate ", " exp.technologies
    ++ "\n" ++ (if exp.featured then "**Featured Position**" else "")
    ++ "\n\n**Responsibilities:**\n" ++ responsibilities
    ++ "\n\n**Achievements:**\n" ++ achievements

/-- formatExperiences: explicit sentence when empty, else joined blocks. -/
def formatExperiences (experiences : List Experience) : String :=
  if experiences.isEmpty then "No work experience recorded."
  else String.intercalate "\n\n" (experiences.map formatExperience)

/-- Append a skill to its relevance group, creating the group at the end on
first encounter (JavaScript object insertion order). -/
def addToGroup (acc : List (String × List Skill)) (key : String) (s : Skill) :
    List (String × List Skill) :=
  match acc with
  | [] => [(key, [s])]
  | (k, l) :: rest =>
    if k == key then (k, l ++ [s]) :: rest
    else (k, l) :: addToGroup rest key s

/-- The reduce that groups skills by roleRelevance ("Other" when falsy). -/
def groupSkills (skills : List Skill) : List (String × List Skill) :=
  skills.foldl (fun acc s =>
    addToGroup acc (if s.roleRelevance == "" then "Other" else s.roleRelevance) s) []

/-- formatSkills: explicit sentence when empty, else grouped sections. -/
def formatSkills (skills : List Skill) : String :=
  if skills.isEmpty then "No skills recorded."
  else String.intercalate "\n\n" ((groupSkills skills).map (fun g =>
    "### " ++ g.1 ++ "\n" ++ String.intercalate "\n" (g.2.map (fun s =>
      "- **" ++ s.name ++ "** (" ++ s.level ++ ", " ++ toString s.yearsOfExperience
        ++ " years) - Rating: " ++ toString s.rating ++ "/10"))))

/-- One project block of formatProjects. -/
def formatProject (proj : Project) : String :=
  "### " ++ proj.name
    ++ "\n**Type:** " ++ proj.type
    ++ "\n" ++ (match proj.date with
          | none => ""
          | some d => "**Date:** " ++ formatDate (some d))
    ++ "\n" ++ (if proj.featured then "**Featured Project**" else "")
    ++ "\n\n**Overview:** " ++ proj.overview
    ++ "\n" ++ optStr proj.challenge (fun c => "**Challenge:** " ++ c)
    ++ "\n" ++ optStr proj.approach (fun a => "**Approach:** " ++ a)
    ++ "\n" ++ optStr proj.outcome (fun o => "**Outcome:** " ++ o)
    ++ "\n" ++ optStr proj.impact (fun i => "**Impact:** " ++ i)
    ++ "\n\n**Technologies:** " ++ String.intercalate ", " proj.technologies
    ++ "\n**Keywords:** " ++ String.intercalate ", " proj.keywords

/-- formatProjects: explicit sentence when empty, else joined blocks. -/
def formatProjects (projects : List Project) : String :=
  if projects.isEmpty then "No projects recorded."
  else String.intercalate "\n\n" (projects.map formatProject)

/-- One education block of formatEducation. -/
def formatEducationEntry (edu : Education) : String :=
  let coursework :=
    if edu.relevantCoursework.isEmpty then ""
    else "\n**Relevant Coursework:** " ++ String.intercalate ", " edu.relevantCoursework
  "### " ++ edu.degree ++ " in " ++ edu.field
    ++ "\n**Institution:** " ++ edu.institution
    ++ "\n**Graduation Year:** " ++ toString edu.graduationYear ++ coursework

/-- formatEducation: explicit sentence when empty, else joined blocks. -/
def formatEducation (educations : List Education) : String :=
  if educations.isEmpty then "No education recorded."
  else String.intercalate "\n\n" (educations.map formatEducationEntry)

/-- formatProfile: explicit sentence when absent, else the profile block. -/
def formatProfile : Option Profile → String
  | none => "No profile information available."
  | some profile =>
    "## Personal Information"
      ++ "\n**Name:** " ++ profile.personalInfo.name
      ++ "\n**Email:** " ++ profile.personalInfo.email
      ++ "\n" ++ optStr profile.personalInfo.phone (fun p => "**Phone:** " ++ p)
      ++ "\n" ++ optStr profile.personalInfo.location (fun l => "**Location:** " ++ l)
      ++ "\n" ++ optStr profile.personalInfo.linkedin (fun l => "**LinkedIn:** " ++ l)
      ++ "\n" ++ optStr profile.personalInfo.github (fun g => "**GitHub:** " ++ g)
      ++ "\n" ++ optStr profile.personalInfo.website (fun w => "**Website:** " ++ w)
      ++ "\n\n## Professional Positioning"
      ++ "\n**Headline:** " ++ profile.positioning.headline
      ++ "\n**Summary:** " ++ profile.positioning.summary
      ++ "\n\n## Value Propositions\n"
      ++ String.intercalate "\n" (profile.valuePropositions.map (fun vp => "- " ++ vp))
      ++ "\n\n## Professional Mission\n" ++ profile.professionalMission
      ++ "\n\n## Unique Selling Points\n"
      ++ String.intercalate "\n" (profile.uniqueSellingPoints.map (fun usp => "- " ++ usp))

/-- buildCareerDataContext: the deterministic context document, sections in
fixed order separated by a constant divider. -/
def buildCareerDataContext (careerData : CareerDataT) : String :=
  "# Career Data\n\n" ++ formatProfile careerData.profile
    ++ "\n\n---\n\n# Work Experience\n" ++ formatExperiences careerData.experiences
    ++ "\n\n---\n\n# Skills\n" ++ formatSkills careerData.skills
    ++ "\n\n---\n\n# Projects\n" ++ formatProjects careerData.projects
    ++ "\n\n---\n\n# Education\n" ++ formatEducation careerData.educations

/-- Containment of one string in another, as character sequences. -/
abbrev appearsIn (needle haystack : String) : Prop :=
  needle.data <:+: haystack.data

-- ===========================================================================
-- Theorems
-- ===========================================================================

/-- C5: every rendered failure whose kind is validation or not-found keeps
its original message verbatim, and every other kind is replaced by the
fixed generic per-kind message, independent of the original text — raw
provider or store exception text never reaches the caller-facing message. -/
theorem sanitize_passes_safe_kinds_and_masks_the_rest :
    ∀ (c : ErrorCode) (m m2 : String),
      ((c = ErrorCode.BAD_USER_INPUT ∨ c = ErrorCode.NOT_FOUND) →
          sanitizeErrorMessage ⟨m, c⟩ = m) ∧
      (c ≠ ErrorCode.BAD_USER_INPUT → c ≠ ErrorCode.NOT_FOUND →
          sanitizeErrorMessage ⟨m, c⟩ = SAFE_ERROR_MESSAGES c ∧
          sanitizeErrorMessage ⟨m, c⟩ = sanitizeErrorMessage ⟨m2, c⟩) := by
  intro c m m2
  constructor
  · rintro (rfl | rfl) <;> rfl
  · intro h1 h2
    have hsafe : isMessageSafe ⟨m, c⟩ = false := by
      cases c
      exacts [rfl, absurd rfl h1, absurd rfl h2, rfl, rfl, rfl]
    have hsafe2 : isMessageSafe ⟨m2, c⟩ = false := by
      cases c
      exacts [rfl, absurd rfl h1, absurd rfl h2, rfl, rfl, rfl]
    constructor <;> simp [sanitizeErrorMessage, hsafe, hsafe2]

theorem sanitize_passes_safe_kinds_and_masks_the_rest_witness :
    sanitizeErrorMessage ⟨"Experience with ID 0000 not found", ErrorCode.NOT_FOUND⟩ =
      "Experience with ID 0000 not found" ∧
    sanitizeErrorMessage ⟨"ECONNREFUSED 127.0.0.1:27017", ErrorCode.DATABASE_ERROR⟩ =
      "Database service is temporarily unavailable" := by
  refine ⟨(sanitize_passes_safe_kinds_and_masks_the_rest ErrorCode.NOT_FOUND
      "Experience with ID 0000 not found" "").1 (Or.inr rfl), ?_⟩
  exact ((sanitize_passes_safe_kinds_and_masks_the_rest ErrorCode.DATABASE_ERROR
      "ECONNREFUSED 127.0.0.1:27017" "").2 (by decide) (by decide)).1

/-- C6: provider failures are classified by decision-list substring
inspection — "API key" yields the ai-service configuration failure,
otherwise "rate limit" the retry-later failure, otherwise "timeout" the
retry failure, otherwise the generic ai-service failure (always kind
ai-service); store failures likewise — "connection" yields the database
connectivity failure, otherwise "duplicate key" the validation
"already exists" failure, otherwise the generic database failure. -/
theorem provider_and_store_error_classification :
    ∀ m : String,
      (handleAnthropicError m).code = ErrorCode.AI_SERVICE_ERROR ∧
      (strIncludes m "API key" = true →
          handleAnthropicError m = AIServiceError "AI service configuration error") ∧
      (strIncludes m "API key" = false → strIncludes m "rate limit" = true →
          handleAnthropicError m =
            AIServiceError "AI service rate limit exceeded. Please try again later.") ∧
      (strIncludes m "API key" = false → strIncludes m "rate limit" = false →
          strIncludes m "timeout" = true →
          handleAnthropicError m =
            AIServiceError "AI service request timed out. Please try again.") ∧
      (strIncludes m "API key" = false → strIncludes m "rate limit" = false →
          strIncludes m "timeout" = false →
          handleAnthropicError m =
            AIServiceError "Failed to generate content. Please try again later.") ∧
      (strIncludes m "connection" = true →
          handleDatabaseError m =
            DatabaseError "Database connection error. Please try again later.") ∧
      (strIncludes m "connection" = false → strIncludes m "duplicate key" = true →
          handleDatabaseError m =
            ValidationError "A record with this identifier already exists") ∧
      (strIncludes m "connection" = false → strIncludes m "duplicate key" = false →
          handleDatabaseError m =
            DatabaseError "Database operation failed. Please try again later.") := by
  intro m
  refine ⟨?_, ?_, ?_, ?_, ?_, ?_, ?_, ?_⟩
  · unfold handleAnthropicError AIServiceError
    split_ifs <;> rfl
  · intro h1; simp [handleAnthropicError, h1]
  · intro h1 h2; simp [handleAnthropicError, h1, h2]
  · intro h1 h2 h3; simp [handleAnthropicError, h1, h2, h3]
  · intro h1 h2 h3; simp [handleAnthropicError, h1, h2, h3]
  · intro h1; simp [handleDatabaseError, h1]
  · intro h1 h2; simp [handleDatabaseError, h1, h2]
  · intro h1 h2; simp [handleDatabaseError, h1, h2]

theorem provider_and_store_error_classification_witness :
    handleAnthropicError "invalid x-api-key header: API key missing" =
      AIServiceError "AI service configuration error" ∧
    handleAnthropicError "429: rate limit reached for requests" =
      AIServiceError "AI service rate limit exceeded. Please try again later." ∧
    handleAnthropicError "socket hang up" =
      AIServiceError "Failed to generate content. Please try again later." ∧
    handleDatabaseError "connection refused by peer" =
      DatabaseError "Database connection error. Please try again later." ∧
    handleDatabaseError "E11000 duplicate key error collection" =
      ValidationError "A record with this identifier already exists" := by
  refine ⟨?_, ?_, ?_, ?_, ?_⟩
  · exact (provider_and_store_error_classification _).2.1 (by decide)
  · exact (provider_and_store_error_classification _).2.2.1 (by decide) (by decide)
  · exact (provider_and_store_error_classification _).2.2.2.2.1 (by decide) (by decide) (by decide)
  · exact (provider_and_store_error_classification _).2.2.2.2.2.1 (by decide)
  · exact (provider_and_store_error_classification _).2.2.2.2.2.2.1 (by decide) (by decide)

/-- C7: every revision builds exactly three conversation turns in fixed
user/assistant/user order, for any jobInfo contents: the first user turn
equals the corresponding Generate user turn (with no additional context),
the assistant turn is the fixed generation-acknowledging placeholder for
the resume and cover-letter kinds and the caller-supplied current answer
for the application-answer kind, and the final user turn frames the
feedback as a revision request. -/
theorem revision_builds_fixed_three_turn_conversation :
    ∀ (j : JobInfoInput) (feedback question currentAnswer : String),
      reviseCoverLetterMessages j feedback =
        [⟨Role.user, generateCoverLetterUserMessage j none⟩,
         ⟨Role.assistant,
            "I\x27ve created a cover letter based on the job description. Please provide feedback for revisions."⟩,
         ⟨Role.user, "Please revise the cover letter based on the following feedback:\n\n" ++ feedback⟩] ∧
      reviseResumeMessages j feedback =
        [⟨Role.user, generateResumeUserMessage j none⟩,
         ⟨Role.assistant,
            "I\x27ve created a resume based on the job description. Please provide feedback for revisions."⟩,
         ⟨Role.user, "Please revise the resume based on the following feedback:\n\n" ++ feedback⟩] ∧
      reviseAnswerMessages j question currentAnswer feedback =
        [⟨Role.user, generateAnswerUserMessage j question none⟩,
         ⟨Role.assistant, currentAnswer⟩,
         ⟨Role.user, "Please revise the answer based on the following feedback:\n\n" ++ feedback⟩] ∧
      (reviseCoverLetterMessages j feedback).map MessageParam.role =
        [Role.user, Role.assistant, Role.user] ∧
      (reviseResumeMessages j feedback).map MessageParam.role =
        [Role.user, Role.assistant, Role.user] ∧
      (reviseAnswerMessages j question currentAnswer feedback).map MessageParam.role =
        [Role.user, Role.assistant, Role.user] ∧
      (reviseCoverLetterMessages j feedback).length = 3 := by
  intro j feedback question currentAnswer
  exact ⟨rfl, rfl, rfl, rfl, rfl, rfl, rfl⟩

/-- C10: with non-blank jobInfo, question and feedback, reviseAnswer
accepts an empty currentAnswer (only question and feedback are checked, as
their failing validations show) and builds a conversation whose assistant
turn content is the empty string; generateAnswer with an empty
currentAnswer builds the same user message as with the argument absent,
omitting the Current Answer section. -/
theorem empty_current_answer_accepted :
    ∀ (j : JobInfoInput) (question feedback : String),
      jsTrim j.description ≠ "" → jsTrim j.jobType ≠ "" →
      jsTrim question ≠ "" → jsTrim feedback ≠ "" →
      reviseAnswerValidation j question "" feedback = Except.ok () ∧
      (reviseAnswerMessages j question "" feedback).get? 1 =
        some ⟨Role.assistant, ""⟩ ∧
      validateQuestion "" =
        Except.error ⟨"Missing required field: question", ErrorCode.BAD_USER_INPUT, ["question"]⟩ ∧
      validateFeedback "" =
        Except.error ⟨"Missing required field: feedback", ErrorCode.BAD_USER_INPUT, ["feedback"]⟩ ∧
      generateAnswerUserMessage j question (some "") =
        generateAnswerUserMessage j question none := by
  intro j question feedback h1 h2 h3 h4
  have d1 : (jsTrim j.description == "") = false := by simp [h1]
  have d2 : (jsTrim j.jobType == "") = false := by simp [h2]
  have d3 : ((jsTrim question) == "") = false := by simp [h3]
  have d4 : ((jsTrim feedback) == "") = false := by simp [h4]
  refine ⟨?_, rfl, rfl, rfl, rfl⟩
  simp only [reviseAnswerValidation, validateJobInfoInput, validateQuestion, validateFeedback,
    d1, d2, d3, d4]
  rfl

theorem empty_current_answer_accepted_witness :
    reviseAnswerValidation ⟨"Senior Engineer role at Acme", "software_engineer"⟩
        "Why do you want to work here" "" "Make it shorter" = Except.ok () ∧
    (reviseAnswerMessages ⟨"Senior Engineer role at Acme", "software_engineer"⟩
        "Why do you want to work here" "" "Make it shorter").get? 1 =
      some ⟨Role.assistant, ""⟩ := by
  have h := empty_current_answer_accepted ⟨"Senior Engineer role at Acme", "software_engineer"⟩
    "Why do you want to work here" "Make it shorter"
    (by decide) (by decide) (by decide) (by decide)
  exact ⟨h.1, h.2.1⟩

/-- C8: for every provider reply, the content of the normalized result is the
text of the first textual content block (the empty string when no textual
block is present, never a failure), the usage copies the reported input
and output token counts exactly, and the cache-read/cache-creation counts
are passed through exactly when the provider reports them and absent
otherwise. -/
theorem reply_normalization_extracts_first_text_and_usage :
    ∀ r : AnthropicResponse,
      (extractGenerationResult r).usage.inputTokens = r.usage.input_tokens ∧
      (extractGenerationResult r).usage.outputTokens = r.usage.output_tokens ∧
      (extractGenerationResult r).usage.cacheReadInputTokens = r.usage.cache_read_input_tokens ∧
      (extractGenerationResult r).usage.cacheCreationInputTokens =
        r.usage.cache_creation_input_tokens ∧
      ((∀ b ∈ r.content, isTextBlock b = false) → (extractGenerationResult r).content = "") ∧
      (∀ pre t post, r.content = pre ++ ContentBlock.text t :: post →
          (∀ b ∈ pre, isTextBlock b = false) → (extractGenerationResult r).content = t) := by
  intro r
  refine ⟨rfl, rfl, rfl, rfl, ?_, ?_⟩
  · intro h
    have hfind : r.content.find? isTextBlock = none :=
      List.find?_eq_none.mpr (fun x hx => by simp [h x hx])
    simp [extractGenerationResult, hfind]
  · intro pre t post hcontent hpre
    have h1 : pre.find? isTextBlock = none :=
      List.find?_eq_none.mpr (fun x hx => by simp [hpre x hx])
    have hfind : r.content.find? isTextBlock = some (ContentBlock.text t) := by
      rw [hcontent, List.find?_append, h1]
      simp [List.find?_cons_of_pos _ (rfl : isTextBlock (ContentBlock.text t) = true)]
    simp [extractGenerationResult, hfind]

theorem reply_normalization_extracts_first_text_and_usage_witness :
    (extractGenerationResult
        ⟨[ContentBlock.other "tool_use", ContentBlock.text "Hello", ContentBlock.text "World"],
          ⟨12, 34, some 5, none⟩⟩).content = "Hello" ∧
    (extractGenerationResult ⟨[ContentBlock.other "tool_use"], ⟨12, 34, some 5, none⟩⟩).content = "" ∧
    (extractGenerationResult
        ⟨[ContentBlock.text "Hello"], ⟨12, 34, some 5, none⟩⟩).usage =
      ⟨12, 34, some 5, none⟩ := by
  have h := reply_normalization_extracts_first_text_and_usage
    ⟨[ContentBlock.other "tool_use", ContentBlock.text "Hello", ContentBlock.text "World"],
      ⟨12, 34, some 5, none⟩⟩
  have h2 := reply_normalization_extracts_first_text_and_usage
    ⟨[ContentBlock.other "tool_use"], ⟨12, 34, some 5, none⟩⟩
  refine ⟨?_, ?_, rfl⟩
  · exact h.2.2.2.2.2 [ContentBlock.other "tool_use"] "Hello" [ContentBlock.text "World"]
      rfl (by decide)
  · exact h2.2.2.2.2.1 (by decide)

-- ===========================================================================
-- C2: filter construction matches the direct conjunctive semantics
-- ===========================================================================

lemma optCond_map_regexCI (v : Option String) (x : String) :
    optCond (v.map StrCond.regexCI) x =
      (match v with | none => true | some p => ciContains x p) := by
  cases v <;> rfl

lemma optCond_map_eqStr (v : Option String) (x : String) :
    optCond (v.map StrCond.eqStr) x =
      (match v with | none => true | some val => x == val) := by
  cases v <;> rfl

lemma optCondOpt_map_regexCI (v : Option String) (x : Option String) :
    optCondOpt (v.map StrCond.regexCI) x =
      (match v with
        | none => true
        | some p => match x with | none => false | some s => ciContains s p) := by
  cases v <;> cases x <;> rfl

/-- Whether an optional string filter value, if supplied, is free of
regex metacharacters (an unsupplied value imposes no regex at all). -/
def literalStrField : Option String → Bool
  | none => true
  | some s => isLiteralPattern s

/-- The regex-position fields of an experience filter are all literal. -/
def experienceFilterLiteral : Option ExperienceFilter → Bool
  | none => true
  | some f => literalStrField f.company && literalStrField f.title &&
      literalStrField f.industry

/-- The regex-position field of a skill filter is literal. -/
def skillFilterLiteral : Option SkillFilter → Bool
  | none => true
  | some f => literalStrField f.name

/-- The regex-position field of a project filter is literal. -/
def projectFilterLiteral : Option ProjectFilter → Bool
  | none => true
  | some f => literalStrField f.name

/-- C2 (amended): each list filter is the conjunction of the criteria the
builder reads, and unsupplied (or empty-string) fields impose no
constraint; experience company/title/industry, skill name and project
name are interpreted as case-insensitive regular-expression searches of
the raw caller value, which for metacharacter-free values (the explicit
hypotheses here, the only domain on which ciContains models the regex
search exactly) is case-insensitive substring matching; the tag-list
fields (roleType, technology, tag) match by exact membership and featured
by exact equality — but skill roleRelevance, skill level and project type
match by exact equality, not case-insensitively as substrings, and the
keyword field the schema accepts on skill and project filters is ignored
and imposes no constraint.  Stated as: the built query evaluated under
MongoDB semantics coincides with the direct conjunctive predicate. -/
theorem filters_are_conjunctive_with_per_field_semantics :
    ∀ (fe : Option ExperienceFilter) (e : Experience)
      (fs : Option SkillFilter) (s : Skill)
      (fp : Option ProjectFilter) (p : Project),
      (experienceFilterLiteral fe = true →
          experienceQueryMatches (buildExperienceFilter fe) e = experienceMatchesSpec fe e) ∧
      (skillFilterLiteral fs = true →
          skillQueryMatches (buildSkillFilter fs) s = skillMatchesSpec fs s) ∧
      (projectFilterLiteral fp = true →
          projectQueryMatches (buildProjectFilter fp) p = projectMatchesSpec fp p) := by
  intro fe e fs s fp p
  refine ⟨fun _ => ?_, fun _ => ?_, fun _ => ?_⟩
  · cases fe with
    | none => rfl
    | some f =>
      simp only [buildExperienceFilter, experienceQueryMatches, experienceMatchesSpec,
        optCond_map_regexCI, optCondOpt_map_regexCI, arrayCond, boolCond]
  · cases fs with
    | none => rfl
    | some f =>
      simp only [buildSkillFilter, skillQueryMatches, skillMatchesSpec,
        optCond_map_regexCI, optCond_map_eqStr, arrayCond]
  · cases fp with
    | none => rfl
    | some f =>
      simp only [buildProjectFilter, projectQueryMatches, projectMatchesSpec,
        optCond_map_regexCI, optCond_map_eqStr, arrayCond, boolCond]

def c2Experience : Experience :=
  ⟨"Acme Corp", "Portland, OR", "Engineer", none, 0, none, ["backend"], [], [],
    ["TypeScript"], true, 0, 0⟩

def c2Skill : Skill :=
  ⟨"TypeScript", "Engineering", "Expert", 9, 8, ["frontend"], [], 0, 0⟩

def c2Project : Project :=
  ⟨"Portfolio Site", "web", none, false, "A site.", none, none, none, none,
    ["TypeScript"], [], [], 0, 0⟩

theorem filters_are_conjunctive_with_per_field_semantics_witness :
    experienceFilterLiteral (some { company := some "acme" }) = true ∧
    experienceQueryMatches (buildExperienceFilter (some { company := some "acme" }))
        c2Experience =
      experienceMatchesSpec (some { company := some "acme" }) c2Experience ∧
    skillFilterLiteral (some { name := some "type" }) = true ∧
    skillQueryMatches (buildSkillFilter (some { name := some "type" })) c2Skill =
      skillMatchesSpec (some { name := some "type" }) c2Skill ∧
    projectFilterLiteral (some { name := some "portfolio" }) = true ∧
    projectQueryMatches (buildProjectFilter (some { name := some "portfolio" }))
        c2Project =
      projectMatchesSpec (some { name := some "portfolio" }) c2Project := by
  have h := filters_are_conjunctive_with_per_field_semantics
    (some { company := some "acme" }) c2Experience
    (some { name := some "type" }) c2Skill
    (some { name := some "portfolio" }) c2Project
  exact ⟨by decide, h.1 (by decide), by decide, h.2.1 (by decide), by decide,
    h.2.2 (by decide)⟩

def c2CounterSkill : Skill :=
  ⟨"TypeScript", "Engineering", "Expert", 9, 8, ["frontend"], [], 0, 0⟩

/-- C2 counterexample: (i) the string-valued skill roleRelevance filter
field matches by exact equality — the supplied value "engineer" fails
against a skill whose roleRelevance is "Engineering" although the claimed
case-insensitive substring semantics would match it; (ii) the keyword
filter field the schema accepts is ignored by the builder — a skill with
no keywords matches a filter demanding keyword "GraphQL", so that
supplied criterion imposes no constraint, against both the claimed
exact-membership semantics for keyword and the claimed conjunction of all
supplied criteria. -/
theorem skill_filter_exact_role_relevance_and_ignored_keyword :
    skillQueryMatches
        (buildSkillFilter (some { roleRelevance := some "engineer" }))
        c2CounterSkill = false ∧
    ciContains c2CounterSkill.roleRelevance "engineer" = true ∧
    skillQueryMatches
        (buildSkillFilter (some { keyword := some "GraphQL" }))
        c2CounterSkill = true ∧
    c2CounterSkill.keywords.contains "GraphQL" = false := by
  exact ⟨rfl, rfl, rfl, rfl⟩

-- ===========================================================================
-- C3: sort-order invariants
-- ===========================================================================

lemma charListLe_total : ∀ as bs, charListLe as bs = true ∨ charListLe bs as = true := by
  intro as
  induction as with
  | nil => intro bs; left; rfl
  | cons a as ih =>
    intro bs
    cases bs with
    | nil => right; rfl
    | cons b bs =>
      rcases lt_trichotomy a b with h | h | h
      · left; simp [charListLe, h]
      · subst h
        rcases ih bs with h2 | h2
        · left; simp [charListLe, lt_irrefl, h2]
        · right; simp [charListLe, lt_irrefl, h2]
      · right; simp [charListLe, h]

lemma charListLe_trans :
    ∀ as bs cs, charListLe as bs = true → charListLe bs cs = true →
      charListLe as cs = true := by
  intro as
  induction as with
  | nil => intro bs cs _ _; rfl
  | cons a as ih =>
    intro bs cs h1 h2
    cases bs with
    | nil => simp [charListLe] at h1
    | cons b bs =>
      cases cs with
      | nil => simp [charListLe] at h2
      | cons c cs =>
        rcases lt_trichotomy a b with hab | hab | hab
        · rcases lt_trichotomy b c with hbc | hbc | hbc
          · simp [charListLe, lt_trans hab hbc]
          · subst hbc; simp [charListLe, hab]
          · simp [charListLe, lt_asymm hbc, hbc] at h2
        · subst hab
          rcases lt_trichotomy a c with hac | hac | hac
          · simp [charListLe, hac]
          · subst hac
            simp only [charListLe, lt_irrefl, if_false] at h1 h2 ⊢
            exact ih bs cs h1 h2
          · simp [charListLe, lt_asymm hac, hac] at h2
        · simp [charListLe, lt_asymm hab, hab] at h1

lemma optDateLe_total : ∀ x y : Option Date, optDateLe x y = true ∨ optDateLe y x = true := by
  intro x y
  cases x <;> cases y <;> simp [optDateLe]
  exact le_total _ _

lemma optDateLe_trans :
    ∀ x y z : Option Date, optDateLe x y = true → optDateLe y z = true →
      optDateLe x z = true := by
  intro x y z h1 h2
  cases x <;> cases y <;> cases z <;> simp_all [optDateLe]
  exact le_trans h1 h2

instance : IsTotal Experience experienceSortRel :=
  ⟨fun a b => le_total b.startDate a.startDate⟩

instance : IsTrans Experience experienceSortRel :=
  ⟨fun _ _ _ h1 h2 => le_trans h2 h1⟩

instance : IsTotal Skill skillSortRel :=
  ⟨fun a b => charListLe_total a.name.data b.name.data⟩

instance : IsTrans Skill skillSortRel :=
  ⟨fun _ _ _ h1 h2 => charListLe_trans _ _ _ h1 h2⟩

instance : IsTotal Project projectSortRel :=
  ⟨fun a b => optDateLe_total b.date a.date⟩

instance : IsTrans Project projectSortRel :=
  ⟨fun _ _ _ h1 h2 => optDateLe_trans _ _ _ h2 h1⟩

instance : IsTotal Education educationSortRel :=
  ⟨fun a b => le_total b.graduationYear a.graduationYear⟩

instance : IsTrans Education educationSortRel :=
  ⟨fun _ _ _ h1 h2 => le_trans h2 h1⟩

/-- C3: every list result is sorted by the fixed per-kind server-side
order — Experience by start date descending, Project by date descending
(absent dates last), Education by graduation year descending, and Skill by
name ascending; but the skill name order is the default
case-sensitive binary order, not the case-insensitive order the claim
states: with names "apple" and "Zebra" the code returns "Zebra" first,
while the claimed case-insensitive ascending order puts "apple" first. -/
theorem sort_orders_fixed_but_skill_sort_case_sensitive :
    findAllSkills
        [{ name := "apple", roleRelevance := "Engineering", level := "Expert", rating := 5,
           yearsOfExperience := 3, tags := [], keywords := [], createdAt := 0, updatedAt := 0 },
         { name := "Zebra", roleRelevance := "Engineering", level := "Expert", rating := 5,
           yearsOfExperience := 3, tags := [], keywords := [], createdAt := 0, updatedAt := 0 }]
        (buildSkillFilter none) =
      [{ name := "Zebra", roleRelevance := "Engineering", level := "Expert", rating := 5,
         yearsOfExperience := 3, tags := [], keywords := [], createdAt := 0, updatedAt := 0 },
       { name := "apple", roleRelevance := "Engineering", level := "Expert", rating := 5,
         yearsOfExperience := 3, tags := [], keywords := [], createdAt := 0, updatedAt := 0 }] ∧
    ciStrLe "apple" "Zebra" = true ∧
    ciStrLe "Zebra" "apple" = false ∧
    (∀ docs q, List.Sorted experienceSortRel (findAllExperiences docs q)) ∧
    (∀ docs q, List.Sorted skillSortRel (findAllSkills docs q)) ∧
    (∀ docs q, List.Sorted projectSortRel (findAllProjects docs q)) ∧
    (∀ docs pred, List.Sorted educationSortRel (findAllEducations docs pred)) := by
  refine ⟨by decide, by decide, by decide, ?_, ?_, ?_, ?_⟩ <;>
    intro docs q <;> exact List.sorted_insertionSort _ _

-- ===========================================================================
-- C9: empty collections render explicit sentences
-- ===========================================================================

/-- C9: for every composite, every empty collection renders as an explicit
"none recorded" sentence inside its own section of the context document
rather than being omitted; in particular an empty Skills collection puts
"No skills recorded." in the skills section. -/
theorem empty_sections_render_explicit_sentences :
    ∀ cd : CareerDataT,
      (cd.profile = none →
          appearsIn "No profile information available." (buildCareerDataContext cd)) ∧
      (cd.experiences = [] →
          appearsIn "# Work Experience\nNo work experience recorded.\n\n---"
            (buildCareerDataContext cd)) ∧
      (cd.skills = [] →
          appearsIn "# Skills\nNo skills recorded.\n\n---" (buildCareerDataContext cd)) ∧
      (cd.projects = [] →
          appearsIn "# Projects\nNo projects recorded.\n\n---" (buildCareerDataContext cd)) ∧
      (cd.educations = [] →
          appearsIn "# Education\nNo education recorded." (buildCareerDataContext cd)) := by
  intro cd
  refine ⟨?_, ?_, ?_, ?_, ?_⟩
  · intro h
    refine List.IsInfix.trans
      (?_ : _ <:+: ("# Career Data\n\n" ++ formatProfile cd.profile
          ++ "\n\n---\n\n# Work Experience\n").data) ?_
    · rw [h]; decide
    · exact ⟨[],
        (formatExperiences cd.experiences ++ "\n\n---\n\n# Skills\n"
          ++ formatSkills cd.skills ++ "\n\n---\n\n# Projects\n"
          ++ formatProjects cd.projects ++ "\n\n---\n\n# Education\n"
          ++ formatEducation cd.educations).data,
        by simp [buildCareerDataContext, String.data_append, List.append_assoc]⟩
  · intro h
    refine List.IsInfix.trans
      (?_ : _ <:+: ("\n\n---\n\n# Work Experience\n" ++ formatExperiences cd.experiences
          ++ "\n\n---\n\n# Skills\n").data) ?_
    · rw [h]; decide
    · exact ⟨("# Career Data\n\n" ++ formatProfile cd.profile).data,
        (formatSkills cd.skills ++ "\n\n---\n\n# Projects\n"
          ++ formatProjects cd.projects ++ "\n\n---\n\n# Education\n"
          ++ formatEducation cd.educations).data,
        by simp [buildCareerDataContext, String.data_append, List.append_assoc]⟩
  · intro h
    refine List.IsInfix.trans
      (?_ : _ <:+: ("\n\n---\n\n# Skills\n" ++ formatSkills cd.skills
          ++ "\n\n---\n\n# Projects\n").data) ?_
    · rw [h]; decide
    · exact ⟨("# Career Data\n\n" ++ formatProfile cd.profile
          ++ "\n\n---\n\n# Work Experience\n" ++ formatExperiences cd.experiences).data,
        (formatProjects cd.projects ++ "\n\n---\n\n# Education\n"
          ++ formatEducation cd.educations).data,
        by simp [buildCareerDataContext, String.data_append, List.append_assoc]⟩
  · intro h
    refine List.IsInfix.trans
      (?_ : _ <:+: ("\n\n---\n\n# Projects\n" ++ formatProjects cd.projects
          ++ "\n\n---\n\n# Education\n").data) ?_
    · rw [h]; decide
    · exact ⟨("# Career Data\n\n" ++ formatProfile cd.profile
          ++ "\n\n---\n\n# Work Experience\n" ++ formatExperiences cd.experiences
          ++ "\n\n---\n\n# Skills\n" ++ formatSkills cd.skills).data,
        (formatEducation cd.educations).data,
        by simp [buildCareerDataContext, String.data_append, List.append_assoc]⟩
  · intro h
    refine List.IsInfix.trans
      (?_ : _ <:+: ("\n\n---\n\n# Education\n" ++ formatEducation cd.educations).data) ?_
    · rw [h]; decide
    · exact ⟨("# Career Data\n\n" ++ formatProfile cd.profile
          ++ "\n\n---\n\n# Work Experience\n" ++ formatExperiences cd.experiences
          ++ "\n\n---\n\n# Skills\n" ++ formatSkills cd.skills
          ++ "\n\n---\n\n# Projects\n" ++ formatProjects cd.projects).data,
        [],
        by simp [buildCareerDataContext, String.data_append, List.append_assoc]⟩

theorem empty_sections_render_explicit_sentences_witness :
    appearsIn "# Skills\nNo skills recorded.\n\n---"
      (buildCareerDataContext ⟨none, [], [], [], []⟩) ∧
    appearsIn "# Work Experience\nNo work experience recorded.\n\n---"
      (buildCareerDataContext ⟨none, [], [], [], []⟩) ∧
    appearsIn "# Projects\nNo projects recorded.\n\n---"
      (buildCareerDataContext ⟨none, [], [], [], []⟩) ∧
    appearsIn "# Education\nNo education recorded."
      (buildCareerDataContext ⟨none, [], [], [], []⟩) ∧
    appearsIn "No profile information available."
      (buildCareerDataContext ⟨none, [], [], [], []⟩) := by
  have h := empty_sections_render_explicit_sentences ⟨none, [], [], [], []⟩
  exact ⟨h.2.2.1 rfl, h.2.1 rfl, h.2.2.2.1 rfl, h.2.2.2.2 rfl, h.1 rfl⟩

-- ===========================================================================
-- C4: create validation collects every missing field
-- ===========================================================================

lemma ite_singleton_append (b : Bool) (x : String) (l : List String) :
    (if b then [x] else []) ++ l = if b then x :: l else l := by
  cases b <;> rfl

/-- The accumulated missingFields list is exactly the required-field list
filtered by the per-field missing test. -/
lemma experienceMissingFields_eq_filter (i : ExperienceInput) :
    experienceMissingFields i =
      List.filter (experienceFieldMissing i) experienceRequiredFields := by
  simp only [experienceMissingFields]
  simp only [List.append_assoc]
  simp only [ite_singleton_append]
  simp only [experienceRequiredFields, List.filter_cons, List.filter_nil,
    experienceFieldMissing]

/-- C4: create-input validation fails exactly when some required field is
missing or empty, the kind of the failure is validation, and its field list
contains exactly the set of all missing required field names — membership
in the reported list coincides with being a missing required field. -/
theorem create_validation_reports_every_missing_field :
    ∀ i : ExperienceInput,
      (validateExperienceInput i = Except.ok () ↔ experienceMissingFields i = []) ∧
      (∀ e, validateExperienceInput i = Except.error e →
          e.code = ErrorCode.BAD_USER_INPUT ∧
          e.missingFields = experienceMissingFields i ∧
          (∀ f, f ∈ e.missingFields ↔
              (f ∈ experienceRequiredFields ∧ experienceFieldMissing i f = true))) := by
  intro i
  constructor
  · by_cases h : (experienceMissingFields i).isEmpty
    · simp [validateExperienceInput, h, List.isEmpty_iff.mp h]
    · constructor
      · intro hok; simp [validateExperienceInput, h] at hok
      · intro hnil; exact absurd (by simp [hnil]) h
  · intro e he
    by_cases h : (experienceMissingFields i).isEmpty
    · simp [validateExperienceInput, h] at he
    · simp only [validateExperienceInput, h, Bool.false_eq_true, if_false,
        Except.error.injEq] at he
      subst he
      refine ⟨rfl, rfl, fun f => ?_⟩
      rw [experienceMissingFields_eq_filter]
      simp [List.mem_filter]

/-- The concrete input of the validation-completeness example of the spec: the
company is empty and the startDate absent, everything else supplied. -/
def c4ExampleInput : ExperienceInput :=
  { company := some "", location := some "Portland, OR", title := some "Senior Engineer",
    industry := none, startDate := none, endDate := none, roleTypes := some [],
    responsibilities := some [], achievements := some [], technologies := some [],
    featured := some true }

def c4ExampleError : GqlError :=
  ⟨"Missing required fields: company, startDate", ErrorCode.BAD_USER_INPUT,
    ["company", "startDate"]⟩

theorem create_validation_reports_every_missing_field_witness :
    validateExperienceInput c4ExampleInput = Except.error c4ExampleError ∧
    "company" ∈ c4ExampleError.missingFields ∧
    "startDate" ∈ c4ExampleError.missingFields ∧
    "location" ∉ c4ExampleError.missingFields := by
  have h := (create_validation_reports_every_missing_field c4ExampleInput).2
    c4ExampleError (by rfl)
  refine ⟨by rfl, (h.2.2 "company").mpr (by decide), (h.2.2 "startDate").mpr (by decide), ?_⟩
  intro hmem
  have h2 := (h.2.2 "location").mp hmem
  revert h2
  decide

-- ===========================================================================
-- C1: absent-identifier behavior of delete and update
-- ===========================================================================

/-- After erasing the matching document from a store with distinct keys, no
document with that key remains. -/
lemma find_after_erase_none (st : Store α) (id : String)
    (hnd : (st.map Prod.fst).Nodup) :
    (st.eraseP (keyIs id)).find? (keyIs id) = none := by
  induction st with
  | nil => rfl
  | cons p rest ih =>
    rw [List.map_cons, List.nodup_cons] at hnd
    by_cases hp : keyIs id p = true
    · rw [List.eraseP_cons_of_pos hp]
      apply List.find?_eq_none.mpr
      intro x hx hkey
      have hx1 : x.1 = id := by simpa [keyIs] using hkey
      have hp1 : p.1 = id := by simpa [keyIs] using hp
      exact hnd.1 (by rw [hp1, ← hx1]; exact List.mem_map_of_mem Prod.fst hx)
    · rw [List.eraseP_cons_of_neg hp, List.find?_cons_of_neg _ hp]
      exact ih hnd.2

/-- C1 (amended): for a valid-format identifier that names no record, the
store layer answers with an explicit absent result — deleteById returns
false and update returns none, leaving the store unchanged — while the
caller-facing delete and update mutations convert that absence into a
not-found failure (code NOT_FOUND) instead of returning success=false;
deleting an existing record succeeds with success=true and deleting it
again reports the same not-found failure, never a failure of a different
kind. -/
theorem absent_id_store_absent_resolver_not_found :
    ∀ (st : Store Experience) (id : String) (input : ExperienceInput) (now : Date)
      (patch : Experience → Experience),
      isValidObjectId id = true →
      (storeFindById st id = none →
          deleteById st id = (false, st) ∧
          updateById st id patch = (none, st) ∧
          deleteExperience st id = Except.error (throwNotFound "Experience" id) ∧
          (validateExperienceInput input = Except.ok () →
            updateExperience st id input now =
              Except.error (throwNotFound "Experience" id))) ∧
      ((st.map Prod.fst).Nodup → (storeFindById st id).isSome →
          deleteExperience st id = Except.ok ⟨true, id⟩ ∧
          deleteExperience (deleteById st id).2 id =
            Except.error (throwNotFound "Experience" id)) := by
  intro st id input now patch hvalid
  constructor
  · intro habs
    have hfind : st.find? (keyIs id) = none := by
      simpa [storeFindById, Option.map_eq_none] using habs
    refine ⟨?_, ?_, ?_, ?_⟩
    · simp [deleteById, hfind]
    · simp [updateById, hfind]
    · simp [deleteExperience, hvalid, deleteById, hfind]
    · intro hval
      simp [updateExperience, hvalid, hval, updateById, hfind]
  · intro hnd hsome
    have hex : ∃ p, st.find? (keyIs id) = some p := by
      rw [storeFindById] at hsome
      exact Option.isSome_iff_exists.mp (by simpa using hsome)
    obtain ⟨p, hp⟩ := hex
    have herase : (st.eraseP (keyIs id)).find? (keyIs id) = none :=
      find_after_erase_none st id hnd
    constructor
    · simp [deleteExperience, hvalid, deleteById, hp]
    · have hsnd : (deleteById st id).2 = st.eraseP (keyIs id) := by
        simp [deleteById, hp]
      rw [hsnd]
      simp [deleteExperience, hvalid, deleteById, herase]

def c1Experience : Experience :=
  ⟨"Acme", "Portland, OR", "Engineer", none, 0, none, [], [], [], [], false, 0, 0⟩

def c1Store : Store Experience :=
  [("64a1b2c3d4e5f6a7b8c9d0e1", c1Experience)]

theorem absent_id_store_absent_resolver_not_found_witness :
    deleteExperience c1Store "64a1b2c3d4e5f6a7b8c9d0e1" =
      Except.ok ⟨true, "64a1b2c3d4e5f6a7b8c9d0e1"⟩ ∧
    deleteExperience (deleteById c1Store "64a1b2c3d4e5f6a7b8c9d0e1").2
        "64a1b2c3d4e5f6a7b8c9d0e1" =
      Except.error (throwNotFound "Experience" "64a1b2c3d4e5f6a7b8c9d0e1") ∧
    deleteById ([] : Store Experience) "64a1b2c3d4e5f6a7b8c9d0e1" = (false, []) := by
  have h2 := (absent_id_store_absent_resolver_not_found c1Store
    "64a1b2c3d4e5f6a7b8c9d0e1" {} 0 id (by decide)).2 (by decide) (by rfl)
  have h1 := ((absent_id_store_absent_resolver_not_found ([] : Store Experience)
    "64a1b2c3d4e5f6a7b8c9d0e1" {} 0 id (by decide)).1 (by rfl)).1
  exact ⟨h2.1, h2.2, h1⟩

/-- C1 counterexample: for a valid-format identifier naming no record, the
delete operation exposed to callers does not return an absent
success=false result — it returns a NOT_FOUND error. -/
theorem delete_of_absent_valid_id_returns_error :
    isValidObjectId "64a1b2c3d4e5f6a7b8c9d0e1" = true ∧
    deleteExperience ([] : Store Experience) "64a1b2c3d4e5f6a7b8c9d0e1" =
      Except.error
        ⟨"Experience with ID 64a1b2c3d4e5f6a7b8c9d0e1 not found",
          ErrorCode.NOT_FOUND, []⟩ ∧
    updateExperience ([] : Store Experience) "64a1b2c3d4e5f6a7b8c9d0e1"
        { company := some "Acme", location := some "Portland, OR",
          title := some "Engineer", industry := none, startDate := some 0,
          endDate := none, roleTypes := some [], responsibilities := some [],
          achievements := some [], technologies := some [], featured := some false }
        0 =
      Except.error
        ⟨"Experience with ID 64a1b2c3d4e5f6a7b8c9d0e1 not found",
          ErrorCode.NOT_FOUND, []⟩ := by
  exact ⟨by decide, rfl, rfl⟩

end CareerData
